import Mathlib

/-!
Shallow embedding of the GestionMedicaBackend clinic-management backend.

The embedding follows the Express/Mongoose source:
- `src/backend/src/models/User.ts` (user, appointment and medical-record
  schemas, the `pre('save')` password hook and the unique indexes),
- the auth controller (`register`, `login`),
- the appointment controller (`createAppointment`, `getAppointments`,
  `getAppointmentById`, `updateAppointment`, `cancelAppointment`) together
  with the route middleware (`auth`, `checkRole`, express-validator chains),
- `src/backend/src/routes/medicalRecords.ts` (validation chain,
  `createMedicalRecord`, `updateMedicalRecord`).

Modelling conventions:
- MongoDB ObjectIds are `Nat`; dates are `Nat` timestamps; times are the
  `String`s the code stores ("HH:mm").
- A schema-optional field is an `Option`; a Mongoose `required` String field
  rejects both a missing value and `""` (Mongoose treats the empty string as
  missing for `required`), captured by `optNonempty`.
- `bcrypt` is modelled by the free algebra `BcryptVal`: hashing wraps a value,
  and `compare` succeeds exactly on the plaintext hashed last.
- Query filters are taken literally (a filter on a path matches a document
  only when the document carries that path with that value); the appointment
  schema has no `time` path, so documents are stored with `time = none` and a
  filter `time = t` never matches a stored document.
- The Mongo `.sort` with keys `date` then `startTime` ascending is modelled
  by `List.insertionSort` over the corresponding lexicographic relation;
  a missing `startTime` sorts first, as missing fields do in BSON.
-/

namespace GestionMedica

/-- Model of a bcrypt string: either a plaintext password or the bcrypt hash
of a previous value under a given salt. -/
inductive BcryptVal where
  | plain (s : String)
  | hashed (v : BcryptVal) (salt : Nat)
deriving DecidableEq, Repr

/-- Model of `bcrypt.hash(value, salt)`. -/
def bcryptHash (v : BcryptVal) (salt : Nat) : BcryptVal :=
  BcryptVal.hashed v salt

/-- Model of `bcrypt.compare(candidate, stored)`: succeeds exactly when
`stored` is a bcrypt hash of the plaintext `candidate`. -/
def bcryptCompare (candidate : String) (stored : BcryptVal) : Bool :=
  match stored with
  | BcryptVal.hashed v _ => v == BcryptVal.plain candidate
  | BcryptVal.plain _ => false

/-- Presence of a Mongoose `required` String path: missing and `""` both
fail the `required` validator. -/
def optNonempty : Option String → Bool
  | some s => !(s == "")
  | none => false

/-- A user document (`userSchema` in `models/User.ts`).  Only the schema
fields that the verified operations read are carried. -/
structure UserDoc where
  id : Nat
  name : String
  email : String
  password : BcryptVal
  role : String
  documentId : String
  birthDate : Option String
  phone : Option String
  address : Option String
deriving DecidableEq, Repr

/-- Document validation of `userSchema` on save: `name`, `email`, `password`,
`role`, `documentId`, `birthDate`, `phone` and `address` are `required`, and
`role` must lie in the enum `patient | doctor | admin`. -/
def userValid (u : UserDoc) : Bool :=
  !(u.name == "") && !(u.email == "") &&
    ["patient", "doctor", "admin"].contains u.role &&
    !(u.documentId == "") && optNonempty u.birthDate &&
    optNonempty u.phone && optNonempty u.address

/-- Payload of the signed JWT (`{ id, email, role }`). -/
structure TokenPayload where
  id : Nat
  email : String
  role : String
deriving DecidableEq, Repr

/-- Body of `POST /api/auth/register`.  The controller destructures only
`name`, `email`, `password`, `role`, `documentId`, `documentType`; the
remaining profile fields may be present in the request but are ignored. -/
structure RegisterInput where
  name : String
  email : String
  password : String
  role : String
  documentId : String
  documentType : Option String
  birthDate : Option String
  phone : Option String
  address : Option String
deriving DecidableEq, Repr

/-- Route validation of `POST /api/auth/register` (`registerValidation`):
`email` well-formed (modelled as containing an `@`), password of length at
least 6, non-empty name, role in the enum; `documentId`/`documentType` are
optional strings. -/
def registerValidation (r : RegisterInput) : Bool :=
  r.email.data.contains '@' && decide (6 ≤ r.password.length) &&
    !(r.name == "") && ["admin", "doctor", "patient"].contains r.role

/-- Outcome of the register endpoint. -/
inductive RegisterOut where
  | validationFailed
  | userExists
  | duplicateKey
  | serverError
  | success (token : TokenPayload)
deriving DecidableEq, Repr

/-- HTTP status of each register outcome. -/
def RegisterOut.statusCode : RegisterOut → Nat
  | RegisterOut.validationFailed => 400
  | RegisterOut.userExists => 400
  | RegisterOut.duplicateKey => 400
  | RegisterOut.serverError => 500
  | RegisterOut.success _ => 200

/-- The register controller (`register` in the auth controller) composed with
its route validation.  It checks `User.findOne({ email })` and answers 400 if
a user exists; otherwise it builds `new User({ name, email, password, role,
documentId, documentType })` — `documentType` is not a schema path and is
stripped, and `birthDate`, `phone`, `address` are not supplied — hashes the
password with `bcrypt.hash` in the controller, and calls `save()`.  `save()`
first runs document validation, then the `pre('save')` hook (which hashes the
password again because the path is modified), then the insert, which the
unique indexes on `email` and `documentId` can still reject. -/
def register (users : List UserDoc) (input : RegisterInput)
    (newId salt1 salt2 : Nat) : RegisterOut × List UserDoc :=
  if !(registerValidation input) then (RegisterOut.validationFailed, users)
  else if (users.find? fun u => u.email == input.email).isSome then
    (RegisterOut.userExists, users)
  else
    let u0 : UserDoc :=
      { id := newId
        name := input.name
        email := input.email
        password := bcryptHash (BcryptVal.plain input.password) salt1
        role := input.role
        documentId := input.documentId
        birthDate := none
        phone := none
        address := none }
    if !(userValid u0) then (RegisterOut.serverError, users)
    else
      let u1 : UserDoc := { u0 with password := bcryptHash u0.password salt2 }
      if (users.find? fun v =>
          v.email == u1.email || v.documentId == u1.documentId).isSome then
        (RegisterOut.duplicateKey, users)
      else
        (RegisterOut.success { id := newId, email := u1.email, role := u1.role },
          users ++ [u1])

/-- Outcome of the login endpoint. -/
inductive LoginOut where
  | invalidCredentials
  | success (token : TokenPayload)
deriving DecidableEq, Repr

/-- HTTP status of each login outcome. -/
def LoginOut.statusCode : LoginOut → Nat
  | LoginOut.invalidCredentials => 401
  | LoginOut.success _ => 200

/-- The login controller: `User.findOne({ email })`, then
`bcrypt.compare(password, user.password)`, then a signed token carrying
`{ id, email, role }`. -/
def login (users : List UserDoc) (email password : String) : LoginOut :=
  match users.find? fun u => u.email == email with
  | none => LoginOut.invalidCredentials
  | some u =>
    if bcryptCompare password u.password then
      LoginOut.success { id := u.id, email := u.email, role := u.role }
    else LoginOut.invalidCredentials

/-- A prescription block of an appointment
(`medications` entries are (name, dosage, frequency, duration)). -/
structure Prescription where
  medications : List (String × String × String × String)
  instructions : Option String
deriving DecidableEq, Repr

/-- An appointment document (`appointmentSchema`).  The schema has no `time`
path; the field is carried here as `Option String` so that the controller's
query filter on `time` can be stated literally, and every document built
through the schema stores `time = none` (strict mode strips the unknown
path). -/
structure AppointmentDoc where
  id : Nat
  patient : Nat
  doctor : Nat
  date : Nat
  startTime : Option String
  endTime : Option String
  time : Option String
  type : Option String
  status : String
  reason : Option String
  notes : Option String
  diagnosis : Option String
  prescription : Option Prescription
deriving DecidableEq, Repr

/-- Document validation of `appointmentSchema` on save: `patient`, `doctor`,
`date`, `startTime`, `endTime`, `type`, `reason` are `required`; `type` must
be `presencial | remota` and `status` must be
`pendiente | confirmada | cancelada | completada`. -/
def apValid (a : AppointmentDoc) : Bool :=
  optNonempty a.startTime && optNonempty a.endTime &&
    (match a.type with
     | some t => ["presencial", "remota"].contains t
     | none => false) &&
    ["pendiente", "confirmada", "cancelada", "completada"].contains a.status &&
    optNonempty a.reason

/-- A medication entry of a treatment block. -/
structure MedEntry where
  name : String
  dosage : String
  frequency : String
  duration : String
  startDate : Nat
  endDate : Option Nat
deriving DecidableEq, Repr

/-- A procedure entry of a treatment block. -/
structure ProcEntry where
  name : String
  date : Nat
  notes : String
deriving DecidableEq, Repr

/-- The treatment block of a medical record; `recommendations` is a
`required` String path of the schema. -/
structure Treatment where
  medications : List MedEntry
  procedures : List ProcEntry
  recommendations : Option String
deriving DecidableEq, Repr

/-- Blood-pressure pair of a vital-signs snapshot. -/
structure BloodPressure where
  systolic : Nat
  diastolic : Nat
deriving DecidableEq, Repr

/-- Vital-signs snapshot; every component is optional. -/
structure VitalSigns where
  bloodPressure : Option BloodPressure
  heartRate : Option Nat
  temperature : Option Nat
  respiratoryRate : Option Nat
  oxygenSaturation : Option Nat
deriving DecidableEq, Repr

/-- Follow-up block of a medical record. -/
structure FollowUp where
  date : Nat
  notes : Option String
deriving DecidableEq, Repr

/-- A medical-record document (`medicalRecordSchema`). -/
structure MedicalRecordDoc where
  id : Nat
  patient : Nat
  doctor : Nat
  date : Nat
  type : String
  symptoms : List String
  diagnosis : Option String
  treatment : Treatment
  vitalSigns : VitalSigns
  notes : Option String
  followUp : Option FollowUp
deriving DecidableEq, Repr

/-- Document validation of `medicalRecordSchema` on save: `type` must lie in
its enum; `diagnosis`, `notes` and `treatment.recommendations` are
`required` String paths; and every `treatment.medications` entry has
`required` `name`, `dosage`, `frequency` and `duration` (a `required`
String path also rejects the empty string; `startDate` is a `required`
Date, always present in this model's entry type). -/
def mrValid (r : MedicalRecordDoc) : Bool :=
  ["consulta", "emergencia", "control", "procedimiento"].contains r.type &&
    optNonempty r.diagnosis && optNonempty r.notes &&
    optNonempty r.treatment.recommendations &&
    r.treatment.medications.all (fun m =>
      !(m.name == "") && !(m.dosage == "") && !(m.frequency == "") &&
        !(m.duration == ""))

/-- The persistent store: the three Mongo collections. -/
structure Store where
  users : List UserDoc
  appointments : List AppointmentDoc
  records : List MedicalRecordDoc
deriving DecidableEq, Repr

/-- Route middleware `checkRole(roles)`: passes exactly when the decoded
role is in the allowed list. -/
def checkRole (roles : List String) (user : TokenPayload) : Bool :=
  roles.contains user.role

/-- The `HH:mm` format check of the route validator
`body('time').matches(/^([0-1]?[0-9]|2[0-3]):[0-5][0-9]$/)`, written
directly on the character list. -/
def hhmmValid (t : String) : Bool :=
  match t.data with
  | [h, ':', m1, m2] =>
    h.isDigit && decide ('0' ≤ m1) && decide (m1 ≤ '5') && m2.isDigit
  | [h1, h2, ':', m1, m2] =>
    (((h1 == '0' || h1 == '1') && h2.isDigit) ||
      (h1 == '2' && decide ('0' ≤ h2) && decide (h2 ≤ '3'))) &&
      decide ('0' ≤ m1) && decide (m1 ≤ '5') && m2.isDigit
  | _ => false

/-- Body of `POST /api/appointments` as the controller destructures it:
`{ patientId, doctorId, date, time, type, notes }` plus the `reason` field
that the route validation checks (the controller never reads it). -/
structure CreateApptBody where
  patientId : Nat
  doctorId : Nat
  date : Nat
  time : String
  type : Option String
  notes : Option String
  reason : Option String
deriving DecidableEq, Repr

/-- Route validation `appointmentValidation`: `patientId`, `doctorId`, `date`
present (guaranteed by the field types here), `time` in `HH:mm` format and a
non-empty `reason`. -/
def appointmentValidation (b : CreateApptBody) : Bool :=
  hhmmValid b.time && optNonempty b.reason

/-- Outcome of the appointment create endpoint. -/
inductive CreateOut where
  | accessDenied
  | validationFailed
  | patientNotFound
  | doctorNotFound
  | slotConflict
  | serverError
  | created (a : AppointmentDoc)
deriving DecidableEq, Repr

/-- HTTP status of each appointment-create outcome. -/
def CreateOut.statusCode : CreateOut → Nat
  | CreateOut.accessDenied => 403
  | CreateOut.validationFailed => 400
  | CreateOut.patientNotFound => 404
  | CreateOut.doctorNotFound => 404
  | CreateOut.slotConflict => 400
  | CreateOut.serverError => 500
  | CreateOut.created _ => 201

/-- The document built by `new Appointment({ patient, doctor, date, time,
type, notes, status: 'scheduled' })`: the unknown path `time` is stripped by
the strict schema, `startTime`, `endTime` and `reason` are never supplied,
and `status` is the literal string `scheduled`. -/
def newAppointmentDoc (b : CreateApptBody) (newId : Nat) : AppointmentDoc :=
  { id := newId
    patient := b.patientId
    doctor := b.doctorId
    date := b.date
    startTime := none
    endTime := none
    time := none
    type := b.type
    status := "scheduled"
    reason := none
    notes := b.notes
    diagnosis := none
    prescription := none }

/-- `POST /api/appointments`: `auth`, `checkRole(['admin','doctor'])` and
`appointmentValidation`, then the `createAppointment` controller — patient
lookup with role `patient`, doctor lookup with role `doctor`, the conflict
query `Appointment.findOne({ doctor, date, time, status: { $ne: 'cancelled'
} })` taken literally, then `save()` of the built document, which document
validation accepts or rejects. -/
def createAppointment (s : Store) (user : TokenPayload) (b : CreateApptBody)
    (newId : Nat) : CreateOut × Store :=
  if !(checkRole ["admin", "doctor"] user) then (CreateOut.accessDenied, s)
  else if !(appointmentValidation b) then (CreateOut.validationFailed, s)
  else if (s.users.find? fun u =>
      u.id == b.patientId && u.role == "patient").isNone then
    (CreateOut.patientNotFound, s)
  else if (s.users.find? fun u =>
      u.id == b.doctorId && u.role == "doctor").isNone then
    (CreateOut.doctorNotFound, s)
  else if (s.appointments.find? fun a =>
      a.doctor == b.doctorId && a.date == b.date && a.time == some b.time &&
        a.status != "cancelled").isSome then
    (CreateOut.slotConflict, s)
  else
    let doc := newAppointmentDoc b newId
    if !(apValid doc) then (CreateOut.serverError, s)
    else (CreateOut.created doc,
      { s with appointments := s.appointments ++ [doc] })

/-- The Mongo filter object built by the `getAppointments` controller. -/
structure ApptQuery where
  dateGte : Option Nat
  dateLte : Option Nat
  status : Option String
  patient : Option Nat
  doctor : Option Nat
deriving DecidableEq, Repr

/-- Evaluation of an `ApptQuery` filter against a stored document. -/
def matchApptQuery (q : ApptQuery) (a : AppointmentDoc) : Bool :=
  (match q.dateGte with
   | some lo => decide (lo ≤ a.date)
   | none => true) &&
  (match q.dateLte with
   | some hi => decide (a.date ≤ hi)
   | none => true) &&
  (match q.status with
   | some st => a.status == st
   | none => true) &&
  (match q.patient with
   | some p => a.patient == p
   | none => true) &&
  (match q.doctor with
   | some d => a.doctor == d
   | none => true)

/-- Query construction of the `getAppointments` controller: the date range
is added only when both `startDate` and `endDate` are given, `status` is
added when truthy, and the requester's role narrows the query to their own
appointments (`patient`/`doctor`); any other role adds no constraint. -/
def buildApptQuery (user : TokenPayload) (startDate endDate : Option Nat)
    (status : Option String) : ApptQuery :=
  let q0 : ApptQuery :=
    { dateGte := none, dateLte := none, status := none,
      patient := none, doctor := none }
  let q1 :=
    match startDate, endDate with
    | some sd, some ed => { q0 with dateGte := some sd, dateLte := some ed }
    | _, _ => q0
  let q2 :=
    match status with
    | some st => if st == "" then q1 else { q1 with status := some st }
    | none => q1
  if user.role == "patient" then { q2 with patient := some user.id }
  else if user.role == "doctor" then { q2 with doctor := some user.id }
  else q2

/-- Boolean form of the sort key comparison `.sort({ date: 1, startTime: 1
})` on the optional `startTime` component: a missing field sorts first, and
present values compare as strings. -/
def optStrLEb : Option String → Option String → Bool
  | none, _ => true
  | some _, none => false
  | some x, some y => decide (x ≤ y)

/-- Boolean form of the full sort key comparison: by `date`, then by
`startTime`. -/
def apptLEb (a b : AppointmentDoc) : Bool :=
  decide (a.date < b.date) ||
    (decide (a.date = b.date) && optStrLEb a.startTime b.startTime)

/-- The sort relation of `.sort({ date: 1, startTime: 1 })`. -/
def apptLE (a b : AppointmentDoc) : Prop :=
  apptLEb a b = true

instance : DecidableRel apptLE :=
  fun a b => inferInstanceAs (Decidable (apptLEb a b = true))

/-- GET `/api/appointments`: the controller builds the role-scoped query and
returns the matches sorted ascending by `date` then `startTime`.  (The route
attaches `searchValidation` without a validation-error handler, so no input
check gates the controller.) -/
def getAppointments (s : Store) (user : TokenPayload)
    (startDate endDate : Option Nat) (status : Option String) :
    List AppointmentDoc :=
  List.insertionSort apptLE
    (s.appointments.filter (matchApptQuery (buildApptQuery user startDate endDate status)))

/-- Outcome of the appointment get-by-id endpoint. -/
inductive GetApptOut where
  | notFound
  | accessDenied
  | found (a : AppointmentDoc)
deriving DecidableEq, Repr

/-- HTTP status of each get-by-id outcome. -/
def GetApptOut.statusCode : GetApptOut → Nat
  | GetApptOut.notFound => 404
  | GetApptOut.accessDenied => 403
  | GetApptOut.found _ => 200

/-- GET `/api/appointments/:id`: lookup by id, then allow only an admin, the
referenced patient or the referenced doctor. -/
def getAppointmentById (s : Store) (user : TokenPayload) (i : Nat) :
    GetApptOut :=
  match s.appointments.find? fun a => a.id == i with
  | none => GetApptOut.notFound
  | some a =>
    if user.role != "admin" && a.patient != user.id && a.doctor != user.id then
      GetApptOut.accessDenied
    else GetApptOut.found a

/-- Outcome of the appointment cancel endpoint. -/
inductive CancelOut where
  | notFound
  | accessDenied
  | serverError
  | ok
deriving DecidableEq, Repr

/-- HTTP status of each cancel outcome. -/
def CancelOut.statusCode : CancelOut → Nat
  | CancelOut.notFound => 404
  | CancelOut.accessDenied => 403
  | CancelOut.serverError => 500
  | CancelOut.ok => 200

/-- PATCH `/api/appointments/:id/cancel`: lookup by id; allow only an admin,
the referenced patient or the referenced doctor; set `status` to `cancelada`
and `save()` (document validation can still reject the save). -/
def cancelAppointment (s : Store) (user : TokenPayload) (i : Nat) :
    CancelOut × Store :=
  match s.appointments.find? fun a => a.id == i with
  | none => (CancelOut.notFound, s)
  | some a =>
    if user.role != "admin" && a.patient != user.id && a.doctor != user.id then
      (CancelOut.accessDenied, s)
    else
      let a' := { a with status := "cancelada" }
      if !(apValid a') then (CancelOut.serverError, s)
      else (CancelOut.ok,
        { s with appointments :=
            s.appointments.map fun x => if x.id == i then a' else x })

/-- Body of `PUT /api/appointments/:id` as read by route validation and the
`updateAppointment` controller.  The route reuses `appointmentValidation`,
so `patientId`, `doctorId`, `date`, `time` and `reason` must be present even
though the controller only applies `date`, `startTime`, `endTime`, `type`,
`status`, `notes`, `diagnosis` and `prescription`. -/
structure UpdateApptBody where
  patientId : Option Nat
  doctorId : Option Nat
  time : Option String
  reason : Option String
  date : Option Nat
  startTime : Option String
  endTime : Option String
  type : Option String
  status : Option String
  notes : Option String
  diagnosis : Option String
  prescription : Option Prescription
deriving DecidableEq, Repr

/-- JavaScript truthiness of an optional string field: present and
non-empty. -/
def truthyStr : Option String → Bool
  | some s => !(s == "")
  | none => false

/-- Route validation of `PUT /api/appointments/:id` (the reused
`appointmentValidation`). -/
def updateApptValidation (b : UpdateApptBody) : Bool :=
  b.patientId.isSome && b.doctorId.isSome && b.date.isSome &&
    (match b.time with
     | some t => hhmmValid t
     | none => false) &&
    optNonempty b.reason

/-- The controller's per-field merge: `if (field) appointment.field = field`
— a supplied field is applied only when truthy, so an empty string leaves
the stored value unchanged. -/
def applyApptUpdate (a : AppointmentDoc) (b : UpdateApptBody) :
    AppointmentDoc :=
  { a with
    date := match b.date with
      | some d => d
      | none => a.date
    startTime := if truthyStr b.startTime then b.startTime else a.startTime
    endTime := if truthyStr b.endTime then b.endTime else a.endTime
    type := if truthyStr b.type then b.type else a.type
    status := match b.status with
      | some st => if st == "" then a.status else st
      | none => a.status
    notes := if truthyStr b.notes then b.notes else a.notes
    diagnosis := if truthyStr b.diagnosis then b.diagnosis else a.diagnosis
    prescription := match b.prescription with
      | some p => some p
      | none => a.prescription }

/-- Outcome of the appointment update endpoint. -/
inductive UpdateApptOut where
  | notFound
  | accessDenied
  | validationFailed
  | serverError
  | updated (a : AppointmentDoc)
deriving DecidableEq, Repr

/-- HTTP status of each appointment-update outcome. -/
def UpdateApptOut.statusCode : UpdateApptOut → Nat
  | UpdateApptOut.notFound => 404
  | UpdateApptOut.accessDenied => 403
  | UpdateApptOut.validationFailed => 400
  | UpdateApptOut.serverError => 500
  | UpdateApptOut.updated _ => 200

/-- PUT `/api/appointments/:id`: `auth`, `checkRole(['admin','doctor'])`,
route validation, lookup by id, then allow only an admin or the referenced
doctor; apply the truthy fields and `save()`. -/
def updateAppointment (s : Store) (user : TokenPayload) (i : Nat)
    (b : UpdateApptBody) : UpdateApptOut × Store :=
  if !(checkRole ["admin", "doctor"] user) then (UpdateApptOut.accessDenied, s)
  else if !(updateApptValidation b) then (UpdateApptOut.validationFailed, s)
  else
    match s.appointments.find? fun a => a.id == i with
    | none => (UpdateApptOut.notFound, s)
    | some a =>
      if user.role != "admin" && a.doctor != user.id then
        (UpdateApptOut.accessDenied, s)
      else
        let a' := applyApptUpdate a b
        if !(apValid a') then (UpdateApptOut.serverError, s)
        else (UpdateApptOut.updated a',
          { s with appointments :=
              s.appointments.map fun x => if x.id == i then a' else x })

/-- Body of `POST`/`PUT /api/medical-records` as the routes read it; every
field is optional at the transport level and `medicalRecordValidation`
decides which must be present. -/
structure MRBody where
  patient : Option Nat
  doctor : Option Nat
  date : Option Nat
  type : Option String
  symptoms : Option (List String)
  diagnosis : Option String
  treatment : Option Treatment
  vitalSigns : Option VitalSigns
  notes : Option String
  followUp : Option FollowUp
deriving DecidableEq, Repr

/-- Whitespace trimming, the model of the validator's `trim` sanitizer,
written structurally on the character list. -/
def strTrim (s : String) : String :=
  String.mk
    (((s.data.dropWhile Char.isWhitespace).reverse.dropWhile
        Char.isWhitespace).reverse)

/-- The sanitizers of `medicalRecordValidation`: `body('diagnosis').trim()`
rewrites the field in place.  (The `treatment` chain's `trim` applies to
string payloads; `treatment` is carried here as a structured value and that
sanitizer is not modelled.) -/
def mrBodySanitize (b : MRBody) : MRBody :=
  { b with diagnosis := b.diagnosis.map strTrim }

/-- Route validation `medicalRecordValidation`: `patient`, `doctor` and a
valid `type` are required — also on update — while `symptoms`, `diagnosis`
(non-empty when present), `vitalSigns` and its range-checked components are
optional.  The chain also applies the blood-pressure format check
`body('vitalSigns.bloodPressure').optional().matches(/^\d{2,3}\/\d{2,3}$/)`:
the validator stringifies its value, and the structured blood-pressure
object — the only representation of that field in this model — stringifies
to a non-matching string, so a present `bloodPressure` fails the check. -/
def medicalRecordValidation (b : MRBody) : Bool :=
  b.patient.isSome && b.doctor.isSome &&
    (match b.type with
     | some t => ["consulta", "emergencia", "control", "procedimiento"].contains t
     | none => false) &&
    (match b.diagnosis with
     | some d => !(d == "")
     | none => true) &&
    (match b.vitalSigns with
     | some v =>
       (match v.bloodPressure with
        | some _ => false
        | none => true) &&
       (match v.heartRate with
        | some h => decide (40 ≤ h) && decide (h ≤ 200)
        | none => true) &&
       (match v.temperature with
        | some t => decide (35 ≤ t) && decide (t ≤ 42)
        | none => true) &&
       (match v.oxygenSaturation with
        | some o => decide (70 ≤ o) && decide (o ≤ 100)
        | none => true)
     | none => true)

/-- The document built by `new MedicalRecord({ ...req.body, createdBy })`:
body fields are copied, `date` defaults to the current time, `symptoms`,
`treatment` and `vitalSigns` default to their empty shapes, and the unknown
path `createdBy` is stripped by the strict schema. -/
def mrDocOf (b : MRBody) (newId now : Nat) : MedicalRecordDoc :=
  { id := newId
    patient := b.patient.getD 0
    doctor := b.doctor.getD 0
    date := b.date.getD now
    type := b.type.getD ""
    symptoms := b.symptoms.getD []
    diagnosis := b.diagnosis
    treatment := b.treatment.getD
      { medications := [], procedures := [], recommendations := none }
    vitalSigns := b.vitalSigns.getD
      { bloodPressure := none, heartRate := none, temperature := none,
        respiratoryRate := none, oxygenSaturation := none }
    notes := b.notes
    followUp := b.followUp }

/-- Outcome of the medical-record create endpoint.  The constructors mirror
the appointment-create outcome space; the controller performs no user
lookup, so the not-found outcomes are never produced. -/
inductive MRCreateOut where
  | accessDenied
  | validationFailed
  | patientNotFound
  | doctorNotFound
  | serverError
  | created (r : MedicalRecordDoc)
deriving DecidableEq, Repr

/-- HTTP status of each medical-record-create outcome. -/
def MRCreateOut.statusCode : MRCreateOut → Nat
  | MRCreateOut.accessDenied => 403
  | MRCreateOut.validationFailed => 400
  | MRCreateOut.patientNotFound => 404
  | MRCreateOut.doctorNotFound => 404
  | MRCreateOut.serverError => 500
  | MRCreateOut.created _ => 201

/-- POST `/api/medical-records`: `auth`, `checkRole(['doctor','admin'])`,
`medicalRecordValidation`, then the controller builds the document from the
body and calls `save()` — no lookup of the referenced patient or doctor is
performed. -/
def createMedicalRecord (s : Store) (user : TokenPayload) (b0 : MRBody)
    (newId now : Nat) : MRCreateOut × Store :=
  if !(checkRole ["doctor", "admin"] user) then (MRCreateOut.accessDenied, s)
  else
    let b := mrBodySanitize b0
    if !(medicalRecordValidation b) then (MRCreateOut.validationFailed, s)
    else
      let doc := mrDocOf b newId now
      if !(mrValid doc) then (MRCreateOut.serverError, s)
      else (MRCreateOut.created doc, { s with records := s.records ++ [doc] })

/-- The `Object.assign(record, req.body)` merge of `updateMedicalRecord`:
every field present in the body replaces the stored top-level field
wholesale; absent fields are untouched. -/
def mrMerge (r : MedicalRecordDoc) (b : MRBody) : MedicalRecordDoc :=
  { r with
    patient := b.patient.getD r.patient
    doctor := b.doctor.getD r.doctor
    date := b.date.getD r.date
    type := b.type.getD r.type
    symptoms := b.symptoms.getD r.symptoms
    diagnosis := match b.diagnosis with
      | some d => some d
      | none => r.diagnosis
    treatment := b.treatment.getD r.treatment
    vitalSigns := b.vitalSigns.getD r.vitalSigns
    notes := match b.notes with
      | some n => some n
      | none => r.notes
    followUp := match b.followUp with
      | some f => some f
      | none => r.followUp }

/-- Outcome of the medical-record update endpoint. -/
inductive MRUpdateOut where
  | notFound
  | accessDenied
  | validationFailed
  | serverError
  | updated (r : MedicalRecordDoc)
deriving DecidableEq, Repr

/-- HTTP status of each medical-record-update outcome. -/
def MRUpdateOut.statusCode : MRUpdateOut → Nat
  | MRUpdateOut.notFound => 404
  | MRUpdateOut.accessDenied => 403
  | MRUpdateOut.validationFailed => 400
  | MRUpdateOut.serverError => 500
  | MRUpdateOut.updated _ => 200

/-- PUT `/api/medical-records/:id`: `auth`, `checkRole(['doctor','admin'])`,
the same `medicalRecordValidation` as create, lookup by id, a doctor may
touch only records they authored, then `Object.assign` and `save()`. -/
def updateMedicalRecord (s : Store) (user : TokenPayload) (i : Nat)
    (b0 : MRBody) : MRUpdateOut × Store :=
  if !(checkRole ["doctor", "admin"] user) then (MRUpdateOut.accessDenied, s)
  else
    let b := mrBodySanitize b0
    if !(medicalRecordValidation b) then (MRUpdateOut.validationFailed, s)
    else
      match s.records.find? fun r => r.id == i with
      | none => (MRUpdateOut.notFound, s)
      | some r =>
        if user.role == "doctor" && r.doctor != user.id then
          (MRUpdateOut.accessDenied, s)
        else
          let r' := mrMerge r b
          if !(mrValid r') then (MRUpdateOut.serverError, s)
          else (MRUpdateOut.updated r',
            { s with records :=
                s.records.map fun x => if x.id == i then r' else x })

/-! Concrete fixtures used by witnesses and counterexamples. -/

/-- A registered patient with every schema-required profile field. -/
def alicePatient : UserDoc :=
  { id := 1
    name := "Alice"
    email := "alice@example.com"
    password := BcryptVal.hashed (BcryptVal.plain "password123") 7
    role := "patient"
    documentId := "DOC1"
    birthDate := some "1990-01-01"
    phone := some "111222333"
    address := some "Calle Falsa 123" }

/-- A registered doctor with every schema-required profile field. -/
def bobDoctor : UserDoc :=
  { id := 2
    name := "Bob"
    email := "bob@example.com"
    password := BcryptVal.hashed (BcryptVal.plain "secreto99") 8
    role := "doctor"
    documentId := "DOC2"
    birthDate := some "1980-05-05"
    phone := some "444555666"
    address := some "Avenida Siempre Viva 742" }

/-- A second registered patient, unrelated to Alice's appointments. -/
def malloryPatient : UserDoc :=
  { id := 3
    name := "Mallory"
    email := "mallory@example.com"
    password := BcryptVal.hashed (BcryptVal.plain "otraClave1") 9
    role := "patient"
    documentId := "DOC3"
    birthDate := some "1992-02-02"
    phone := some "777888999"
    address := some "Calle Luna 4" }

/-- Alice's decoded session token. -/
def aliceToken : TokenPayload :=
  { id := 1, email := "alice@example.com", role := "patient" }

/-- Bob's decoded session token. -/
def bobToken : TokenPayload :=
  { id := 2, email := "bob@example.com", role := "doctor" }

/-- Mallory's decoded session token. -/
def malloryToken : TokenPayload :=
  { id := 3, email := "mallory@example.com", role := "patient" }

/-- An admin's decoded session token. -/
def adminToken : TokenPayload :=
  { id := 9, email := "admin@example.com", role := "admin" }

/-- A schema-valid pending appointment of Alice with Bob at 10:00. -/
def apptPending : AppointmentDoc :=
  { id := 100
    patient := 1
    doctor := 2
    date := 20240601
    startTime := some "10:00"
    endTime := some "11:00"
    time := none
    type := some "presencial"
    status := "pendiente"
    reason := some "control anual"
    notes := some "primera visita"
    diagnosis := none
    prescription := none }

/-- The same appointment after cancellation (`status = 'cancelada'`). -/
def apptCancelled : AppointmentDoc :=
  { apptPending with status := "cancelada" }

/-- A create request for Bob's 2024-06-01 10:00 slot. -/
def slotBody : CreateApptBody :=
  { patientId := 1
    doctorId := 2
    date := 20240601
    time := "10:00"
    type := some "presencial"
    notes := none
    reason := some "control anual" }

/-- Store with Alice and Bob and no appointments. -/
def baseStore : Store :=
  { users := [alicePatient, bobDoctor], appointments := [], records := [] }

/-- Store whose only appointment in Bob's 10:00 slot is cancelled. -/
def cancelledSlotStore : Store :=
  { baseStore with appointments := [apptCancelled] }

/-- Store whose only appointment in Bob's 10:00 slot is pending. -/
def pendingSlotStore : Store :=
  { baseStore with appointments := [apptPending] }

/-- Store with Alice, Bob, Mallory and Alice's pending appointment. -/
def wardStore : Store :=
  { users := [alicePatient, bobDoctor, malloryPatient]
    appointments := [apptPending]
    records := [] }

/-- A registration request carrying the full profile; the controller still
only reads `name`, `email`, `password`, `role`, `documentId`,
`documentType`. -/
def aliceRegInput : RegisterInput :=
  { name := "Alice"
    email := "alice@example.com"
    password := "password123"
    role := "patient"
    documentId := "DOC1"
    documentType := some "DNI"
    birthDate := some "1990-01-01"
    phone := some "111222333"
    address := some "Calle Falsa 123" }

/-- A second registration request with Alice's email but different profile
fields. -/
def aliceDupInput : RegisterInput :=
  { name := "Alicia Clon"
    email := "alice@example.com"
    password := "otroPass7"
    role := "doctor"
    documentId := "DOC99"
    documentType := some "Pasaporte"
    birthDate := some "1991-03-03"
    phone := some "000111222"
    address := some "Otra Calle 9" }

/-- A schema-valid medical record authored by Bob for Alice. -/
def mrRecord : MedicalRecordDoc :=
  { id := 500
    patient := 1
    doctor := 2
    date := 20240601
    type := "consulta"
    symptoms := ["tos", "fiebre"]
    diagnosis := some "Resfriado"
    treatment :=
      { medications := []
        procedures := []
        recommendations := some "Reposo e hidratacion" }
    vitalSigns :=
      { bloodPressure := none, heartRate := some 72, temperature := none,
        respiratoryRate := none, oxygenSaturation := none }
    notes := some "Nota inicial"
    followUp := none }

/-- Store holding Bob's record for Alice. -/
def mrStore : Store :=
  { users := [alicePatient, bobDoctor], appointments := [], records := [mrRecord] }

/-- An update body that supplies only the diagnosis field. -/
def diagnosisOnlyBody : MRBody :=
  { patient := none
    doctor := none
    date := none
    type := none
    symptoms := none
    diagnosis := some "Gripe"
    treatment := none
    vitalSigns := none
    notes := none
    followUp := none }

/-- An update body supplying the diagnosis together with the record's
existing `patient`, `doctor` and `type`, as route validation demands. -/
def diagnosisUpdateBody : MRBody :=
  { diagnosisOnlyBody with
    patient := some 1
    doctor := some 2
    type := some "consulta" }

/-- A medical-record create body whose `patient`/`doctor` references resolve
to no user, passing route validation but missing the schema-required
`diagnosis`, `notes` and `treatment.recommendations`. -/
def danglingRefsBody : MRBody :=
  { patient := some 99
    doctor := some 98
    date := none
    type := some "consulta"
    symptoms := none
    diagnosis := none
    treatment := none
    vitalSigns := none
    notes := none
    followUp := none }

/-- A medical-record create body whose references resolve to no user and
whose constructed document satisfies the schema. -/
def danglingRefsFullBody : MRBody :=
  { danglingRefsBody with
    diagnosis := some "Fractura"
    notes := some "Derivado de urgencias"
    treatment := some
      { medications := [], procedures := [], recommendations := some "Yeso" } }

/-- An appointment-update body that passes route validation and supplies
empty strings for `notes` and `diagnosis` (an attempt to clear them). -/
def clearingUpdateBody : UpdateApptBody :=
  { patientId := some 1
    doctorId := some 2
    time := some "10:00"
    reason := some "control anual"
    date := some 20240601
    startTime := none
    endTime := none
    type := none
    status := some "confirmada"
    notes := some ""
    diagnosis := some ""
    prescription := none }

/-! Generic helper lemmas and order instances. -/

/-- Replacing the found element through a `map` that rewrites exactly the
matching elements moves `find?` to the image of the found element. -/
theorem find?_map_replace {α : Type} (p : α → Bool) (f : α → α)
    (hp : ∀ x, p (f x) = p x) (hid : ∀ x, p x = false → f x = x) :
    ∀ {l : List α} {a : α}, l.find? p = some a →
      (l.map f).find? p = some (f a) := by
  intro l
  induction l with
  | nil => intro a h; simp at h
  | cons b t ih =>
    intro a h
    cases hb : p b with
    | true =>
      rw [List.find?_cons_of_pos _ hb] at h
      obtain rfl : b = a := Option.some.inj h
      rw [List.map_cons]
      exact List.find?_cons_of_pos _ (by rw [hp]; exact hb)
    | false =>
      rw [List.find?_cons_of_neg _ (by simp [hb])] at h
      rw [List.map_cons,
        List.find?_cons_of_neg _ (by rw [hid b hb]; simp [hb])]
      exact ih h

/-- Cancelling preserves document validity: only the `status` field changes
and `cancelada` lies in the status enum. -/
theorem apValid_cancelada {a : AppointmentDoc} (h : apValid a = true) :
    apValid { a with status := "cancelada" } = true := by
  unfold apValid at h ⊢
  simp only [Bool.and_eq_true] at h ⊢
  exact ⟨⟨⟨⟨h.1.1.1.1, h.1.1.1.2⟩, h.1.1.2⟩, by decide⟩, h.2⟩

/-- Totality of the optional-string component of the sort key. -/
theorem optStrLEb_total (x y : Option String) :
    optStrLEb x y = true ∨ optStrLEb y x = true := by
  cases x with
  | none => exact Or.inl rfl
  | some a =>
    cases y with
    | none => exact Or.inr rfl
    | some b =>
      simp only [optStrLEb, decide_eq_true_eq]
      exact le_total a b

/-- Transitivity of the optional-string component of the sort key. -/
theorem optStrLEb_trans {x y z : Option String} (hxy : optStrLEb x y = true)
    (hyz : optStrLEb y z = true) : optStrLEb x z = true := by
  cases x with
  | none => rfl
  | some a =>
    cases y with
    | none => simp [optStrLEb] at hxy
    | some b =>
      cases z with
      | none => simp [optStrLEb] at hyz
      | some c =>
        simp only [optStrLEb, decide_eq_true_eq] at hxy hyz ⊢
        exact le_trans hxy hyz

/-- Totality of the appointment sort key. -/
theorem apptLEb_total (a b : AppointmentDoc) :
    apptLEb a b = true ∨ apptLEb b a = true := by
  unfold apptLEb
  simp only [Bool.or_eq_true, Bool.and_eq_true, decide_eq_true_eq]
  rcases Nat.lt_trichotomy a.date b.date with h | h | h
  · exact Or.inl (Or.inl h)
  · rcases optStrLEb_total a.startTime b.startTime with hs | hs
    · exact Or.inl (Or.inr ⟨h, hs⟩)
    · exact Or.inr (Or.inr ⟨h.symm, hs⟩)
  · exact Or.inr (Or.inl h)

/-- Transitivity of the appointment sort key. -/
theorem apptLEb_trans {a b c : AppointmentDoc} (hab : apptLEb a b = true)
    (hbc : apptLEb b c = true) : apptLEb a c = true := by
  unfold apptLEb at hab hbc ⊢
  simp only [Bool.or_eq_true, Bool.and_eq_true, decide_eq_true_eq] at hab hbc ⊢
  rcases hab with h1 | ⟨e1, s1⟩
  · rcases hbc with h2 | ⟨e2, _⟩
    · exact Or.inl (lt_trans h1 h2)
    · exact Or.inl (e2 ▸ h1)
  · rcases hbc with h2 | ⟨e2, s2⟩
    · exact Or.inl (e1 ▸ h2)
    · exact Or.inr ⟨e1.trans e2, optStrLEb_trans s1 s2⟩

instance : IsTotal AppointmentDoc apptLE :=
  ⟨fun a b => apptLEb_total a b⟩

instance : IsTrans AppointmentDoc apptLE :=
  ⟨fun _ _ _ hab hbc => apptLEb_trans hab hbc⟩

/-- The query the list controller builds matches a stored appointment
exactly when the declarative filter-and-scope condition of the
specification holds. -/
theorem matchApptQuery_buildApptQuery (user : TokenPayload)
    (startDate endDate : Option Nat) (status : Option String)
    (a : AppointmentDoc) :
    matchApptQuery (buildApptQuery user startDate endDate status) a =
      ((match startDate, endDate with
        | some lo, some hi => decide (lo ≤ a.date) && decide (a.date ≤ hi)
        | _, _ => true) &&
       ((match status with
         | some st => if st == "" then true else a.status == st
         | none => true) &&
        ((!(user.role == "patient") || a.patient == user.id) &&
         (!(user.role == "doctor") || a.doctor == user.id)))) := by
  unfold buildApptQuery matchApptQuery
  cases status with
  | none =>
    cases startDate <;> cases endDate <;>
      cases hP : user.role == "patient" <;> cases hD : user.role == "doctor" <;>
        simp_all [Bool.and_assoc]
  | some st =>
    cases hst : st == "" <;>
      cases startDate <;> cases endDate <;>
        cases hP : user.role == "patient" <;> cases hD : user.role == "doctor" <;>
          simp_all [Bool.and_assoc]

/-! Claim theorems. -/

/-- C1: the claim states that appointment create fails with `SlotConflict`
exactly when a non-cancelled appointment occupies the same (doctor, date,
start time), and that after the sole occupying appointment is cancelled a
new create for that slot succeeds.  Evaluating the code at that scenario
refutes it: with the slot's only appointment already cancelled
(`status = 'cancelada'`), the create request still fails — the conflict
filter compares `status` against the non-enum value `'cancelled'` and
queries the non-schema path `time`, and the insert is rejected by document
validation — so the operation returns 500 and inserts nothing; and with a
pending appointment in the slot the same request fails with 500 rather than
`SlotConflict`. -/
theorem c1_cancelled_slot_create_still_fails :
    createAppointment cancelledSlotStore bobToken slotBody 101 =
      (CreateOut.serverError, cancelledSlotStore) ∧
    CreateOut.serverError.statusCode = 500 ∧
    (∀ a ∈ cancelledSlotStore.appointments, a.status = "cancelada") ∧
    createAppointment pendingSlotStore bobToken slotBody 101 =
      (CreateOut.serverError, pendingSlotStore) ∧
    (∃ a ∈ pendingSlotStore.appointments,
      a.doctor = slotBody.doctorId ∧ a.date = slotBody.date ∧
        a.startTime = some slotBody.time ∧ a.status ≠ "cancelada") := by
  decide

/-- C2: the claim states that register followed by login with the same
credentials succeeds.  Evaluating the code at a fresh registration refutes
it: the controller builds the user document without the schema-required
`birthDate`, `phone` and `address`, so the save is rejected and register
answers 500 without inserting a user, and the subsequent login fails with
`InvalidCredentials`; moreover the controller hashes the password and the
`pre('save')` hook hashes it again, so even a saved user would store a
double hash that login's `bcrypt.compare` rejects. -/
theorem c2_register_then_login_fails :
    (register [] aliceRegInput 1 10 11).1 = RegisterOut.serverError ∧
    (register [] aliceRegInput 1 10 11).1.statusCode = 500 ∧
    (register [] aliceRegInput 1 10 11).2 = [] ∧
    login (register [] aliceRegInput 1 10 11).2 "alice@example.com"
      "password123" = LoginOut.invalidCredentials ∧
    bcryptCompare "password123"
      (bcryptHash (bcryptHash (BcryptVal.plain "password123") 10) 11) =
      false := by
  decide

/-- C3: the claim states that every appointment created through the create
operation is inserted with status `pendiente`.  Evaluating the code refutes
it: the document the controller builds carries the literal status
`scheduled`, which is outside the schema's status enumeration, so the save
is rejected and nothing is inserted. -/
theorem c3_create_status_scheduled_not_pendiente :
    (newAppointmentDoc slotBody 200).status = "scheduled" ∧
    (newAppointmentDoc slotBody 200).status ≠ "pendiente" ∧
    (["pendiente", "confirmada", "cancelada", "completada"].contains
      (newAppointmentDoc slotBody 200).status) = false ∧
    createAppointment baseStore bobToken slotBody 200 =
      (CreateOut.serverError, baseStore) := by
  decide

/-- C6: the list operation returns exactly the stored appointments matching
the supplied filters and the requester's scope — a patient only where they
are the patient, a doctor only where they are the doctor, any other role
(admin) all matches — and the result is sorted ascending by date and then
by start time. -/
theorem c6_getAppointments_scope_and_order (s : Store) (user : TokenPayload)
    (startDate endDate : Option Nat) (status : Option String) :
    (getAppointments s user startDate endDate status).Perm
      (s.appointments.filter fun a =>
        (match startDate, endDate with
         | some lo, some hi => decide (lo ≤ a.date) && decide (a.date ≤ hi)
         | _, _ => true) &&
        ((match status with
          | some st => if st == "" then true else a.status == st
          | none => true) &&
         ((!(user.role == "patient") || a.patient == user.id) &&
          (!(user.role == "doctor") || a.doctor == user.id)))) ∧
    List.Sorted apptLE (getAppointments s user startDate endDate status) := by
  constructor
  · have hf : s.appointments.filter
        (matchApptQuery (buildApptQuery user startDate endDate status)) =
        s.appointments.filter fun a =>
          (match startDate, endDate with
           | some lo, some hi => decide (lo ≤ a.date) && decide (a.date ≤ hi)
           | _, _ => true) &&
          ((match status with
            | some st => if st == "" then true else a.status == st
            | none => true) &&
           ((!(user.role == "patient") || a.patient == user.id) &&
            (!(user.role == "doctor") || a.doctor == user.id))) :=
      List.filter_congr fun x _ =>
        matchApptQuery_buildApptQuery user startDate endDate status x
    unfold getAppointments
    exact hf ▸ List.perm_insertionSort apptLE _
  · exact List.sorted_insertionSort apptLE _

/-- C4: for every appointment-create request that passes the role check,
the boundary validation, the patient and doctor existence checks and the
slot-conflict check, the insert itself fails and the operation returns
`ServerError` (HTTP 500): the constructed document omits the
schema-required `reason`, `startTime` and `endTime` and carries the status
`scheduled`, which is outside the schema enumeration, so document
validation rejects the save and nothing is inserted. -/
theorem c4_validated_create_insert_fails (s : Store) (u : TokenPayload)
    (b : CreateApptBody) (newId : Nat)
    (hrole : checkRole ["admin", "doctor"] u = true)
    (hval : appointmentValidation b = true)
    (hp : (s.users.find? fun x =>
      x.id == b.patientId && x.role == "patient").isNone = false)
    (hd : (s.users.find? fun x =>
      x.id == b.doctorId && x.role == "doctor").isNone = false)
    (hc : (s.appointments.find? fun a =>
      a.doctor == b.doctorId && a.date == b.date && a.time == some b.time &&
        a.status != "cancelled").isSome = false) :
    createAppointment s u b newId = (CreateOut.serverError, s) ∧
    (createAppointment s u b newId).1.statusCode = 500 ∧
    (newAppointmentDoc b newId).startTime = none ∧
    (newAppointmentDoc b newId).endTime = none ∧
    (newAppointmentDoc b newId).reason = none ∧
    (newAppointmentDoc b newId).status = "scheduled" ∧
    apValid (newAppointmentDoc b newId) = false := by
  have hap : apValid (newAppointmentDoc b newId) = false := by
    simp [apValid, newAppointmentDoc, optNonempty]
  have h1 : createAppointment s u b newId = (CreateOut.serverError, s) := by
    simp [createAppointment, hrole, hval, hp, hd, hc, hap]
  exact ⟨h1, by rw [h1]; rfl, rfl, rfl, rfl, rfl, hap⟩

/-- Witness for C4: a concrete request by an admin for Alice and Bob's free
slot passes every check and still fails with 500. -/
theorem c4_validated_create_insert_fails_witness :
    createAppointment baseStore adminToken slotBody 300 =
      (CreateOut.serverError, baseStore) ∧
    (createAppointment baseStore adminToken slotBody 300).1.statusCode = 500 ∧
    (newAppointmentDoc slotBody 300).startTime = none ∧
    (newAppointmentDoc slotBody 300).endTime = none ∧
    (newAppointmentDoc slotBody 300).reason = none ∧
    (newAppointmentDoc slotBody 300).status = "scheduled" ∧
    apValid (newAppointmentDoc slotBody 300) = false :=
  c4_validated_create_insert_fails baseStore adminToken slotBody 300
    (by decide) (by decide) (by decide) (by decide) (by decide)

/-- C9: for every already-registered email, a second register request with
that email (passing the boundary input validation) fails with
`DuplicateUser` (HTTP 400) regardless of the other profile fields, and no
user record is inserted. -/
theorem c9_duplicate_email_register (users : List UserDoc)
    (input : RegisterInput) (newId salt1 salt2 : Nat)
    (hval : registerValidation input = true)
    (hdup : ∃ u, u ∈ users ∧ u.email = input.email) :
    (register users input newId salt1 salt2).1 = RegisterOut.userExists ∧
    (register users input newId salt1 salt2).1.statusCode = 400 ∧
    (register users input newId salt1 salt2).2 = users := by
  have hfound : (users.find? fun u => u.email == input.email).isSome = true := by
    obtain ⟨u, hu, he⟩ := hdup
    exact List.find?_isSome.mpr ⟨u, hu, by simp [he]⟩
  have h1 : (register users input newId salt1 salt2) =
      (RegisterOut.userExists, users) := by
    simp [register, hval, hfound]
  exact ⟨by rw [h1], by rw [h1]; rfl, by rw [h1]⟩

/-- Witness for C9: registering Alice's email again with entirely different
profile fields is rejected with 400 and the user list is unchanged. -/
theorem c9_duplicate_email_register_witness :
    (register [alicePatient] aliceDupInput 5 1 2).1 = RegisterOut.userExists ∧
    (register [alicePatient] aliceDupInput 5 1 2).1.statusCode = 400 ∧
    (register [alicePatient] aliceDupInput 5 1 2).2 = [alicePatient] :=
  c9_duplicate_email_register [alicePatient] aliceDupInput 5 1 2
    (by decide) ⟨alicePatient, by decide, by decide⟩

/-- C5: for a requester with role `patient` who is not the appointment's
referenced doctor, `getById` and `cancel` succeed exactly when the
requester is the appointment's referenced patient; on another patient's
appointment both answer `AccessDenied` and the store — in particular the
appointment's status — is left unchanged. -/
theorem c5_patient_scope_getById_cancel (s : Store) (u : TokenPayload)
    (i : Nat) (a : AppointmentDoc)
    (hrole : u.role = "patient")
    (hfind : s.appointments.find? (fun x => x.id == i) = some a)
    (hnd : u.id ≠ a.doctor)
    (hvalid : apValid a = true) :
    (u.id = a.patient →
      getAppointmentById s u i = GetApptOut.found a ∧
      (cancelAppointment s u i).1 = CancelOut.ok ∧
      ((cancelAppointment s u i).2.appointments.find? fun x => x.id == i) =
        some { a with status := "cancelada" }) ∧
    (u.id ≠ a.patient →
      getAppointmentById s u i = GetApptOut.accessDenied ∧
      cancelAppointment s u i = (CancelOut.accessDenied, s)) := by
  have hAdm : (u.role != "admin") = true := by rw [hrole]; decide
  have hDoc : (a.doctor != u.id) = true := by
    simp only [bne_iff_ne, ne_eq]
    exact fun h => hnd h.symm
  have haid : (a.id == i) = true := by simpa using List.find?_some hfind
  constructor
  · intro hpa
    have hPat : (a.patient != u.id) = false := by
      rw [hpa]
      exact bne_self_eq_false _
    have hva := apValid_cancelada hvalid
    refine ⟨?_, ?_, ?_⟩
    · simp [getAppointmentById, hfind, hAdm, hPat]
    · simp [cancelAppointment, hfind, hAdm, hPat, hva]
    · have hp : ∀ x : AppointmentDoc,
          ((if x.id == i then { a with status := "cancelada" } else x).id == i)
            = (x.id == i) := by
        intro x
        by_cases hx : (x.id == i) = true
        · simp [hx, haid]
        · simp [hx]
      have h := find?_map_replace (fun x => x.id == i)
        (fun x => if x.id == i then { a with status := "cancelada" } else x)
        hp (fun x hx => by simp [hx]) hfind
      simp only [haid, if_true] at h
      simpa [cancelAppointment, hfind, hAdm, hPat, hva] using h
  · intro hpa
    have hPat : (a.patient != u.id) = true := by
      simp only [bne_iff_ne, ne_eq]
      exact fun h => hpa h.symm
    constructor
    · simp [getAppointmentById, hfind, hAdm, hPat, hDoc]
    · simp [cancelAppointment, hfind, hAdm, hPat, hDoc]

/-- Witness for C5: Mallory (a patient) is denied on Alice's appointment,
which keeps its status, while Alice can fetch and cancel it. -/
theorem c5_patient_scope_getById_cancel_witness :
    (getAppointmentById wardStore malloryToken 100 = GetApptOut.accessDenied ∧
     cancelAppointment wardStore malloryToken 100 =
       (CancelOut.accessDenied, wardStore)) ∧
    (getAppointmentById wardStore aliceToken 100 = GetApptOut.found apptPending ∧
     (cancelAppointment wardStore aliceToken 100).1 = CancelOut.ok ∧
     ((cancelAppointment wardStore aliceToken 100).2.appointments.find?
        fun x => x.id == 100) = some { apptPending with status := "cancelada" }) :=
  ⟨(c5_patient_scope_getById_cancel wardStore malloryToken 100 apptPending
      rfl (by decide) (by decide) (by decide)).2 (by decide),
   (c5_patient_scope_getById_cancel wardStore aliceToken 100 apptPending
      rfl (by decide) (by decide) (by decide)).1 rfl⟩

/-- C10: appointment update applies a supplied field only when its value is
truthy: a field supplied as the empty string (or an absent `prescription`)
leaves the stored value unchanged, so `notes`, `diagnosis` and
`prescription` can never be cleared through update — whatever stored
appointment the operation leaves behind, its `notes`/`diagnosis` are empty
only if they already were. -/
theorem c10_update_falsy_fields_preserved (s : Store) (u : TokenPayload)
    (i : Nat) (b : UpdateApptBody) (a a' : AppointmentDoc)
    (hfind : s.appointments.find? (fun x => x.id == i) = some a)
    (hfind' : ((updateAppointment s u i b).2.appointments.find?
      fun x => x.id == i) = some a') :
    (b.notes = some "" → a'.notes = a.notes) ∧
    (b.diagnosis = some "" → a'.diagnosis = a.diagnosis) ∧
    (b.prescription = none → a'.prescription = a.prescription) ∧
    (a'.notes = some "" → a.notes = some "") ∧
    (a'.diagnosis = some "" → a.diagnosis = some "") := by
  have haid : (a.id == i) = true := by simpa using List.find?_some hfind
  have hchar : a' = a ∨ a' = applyApptUpdate a b := by
    cases hcr : checkRole ["admin", "doctor"] u with
    | false =>
      have hmain : (updateAppointment s u i b).2 = s := by
        simp [updateAppointment, hcr]
      left
      rw [hmain, hfind] at hfind'
      exact (Option.some.inj hfind').symm
    | true =>
      cases hval : updateApptValidation b with
      | false =>
        have hmain : (updateAppointment s u i b).2 = s := by
          simp [updateAppointment, hcr, hval]
        left
        rw [hmain, hfind] at hfind'
        exact (Option.some.inj hfind').symm
      | true =>
        by_cases hperm : ¬u.role = "admin" ∧ ¬a.doctor = u.id
        · have hmain : (updateAppointment s u i b).2 = s := by
            simp [updateAppointment, hcr, hval, hfind, hperm]
          left
          rw [hmain, hfind] at hfind'
          exact (Option.some.inj hfind').symm
        · cases hap : apValid (applyApptUpdate a b) with
          | false =>
            have hmain : (updateAppointment s u i b).2 = s := by
              simp [updateAppointment, hcr, hval, hfind, hperm, hap]
            left
            rw [hmain, hfind] at hfind'
            exact (Option.some.inj hfind').symm
          | true =>
            have hmain : (updateAppointment s u i b).2 =
                { s with appointments := s.appointments.map (fun x => if x.id == i then applyApptUpdate a b else x) } := by
              simp [updateAppointment, hcr, hval, hfind, hperm, hap]
            right
            rw [hmain] at hfind'
            have hfind2 : (s.appointments.map
                (fun x => if x.id == i then applyApptUpdate a b else x)).find?
                  (fun x => x.id == i) = some a' := hfind'
            have hp : ∀ x : AppointmentDoc,
                ((if x.id == i then applyApptUpdate a b else x).id == i)
                  = (x.id == i) := by
              intro x
              by_cases hx : (x.id == i) = true
              · simp [hx, haid, applyApptUpdate]
              · simp [hx]
            have h := find?_map_replace (fun x => x.id == i)
              (fun x => if x.id == i then applyApptUpdate a b else x)
              hp (fun x hx => by simp [hx]) hfind
            simp only [haid, if_true] at h
            rw [h] at hfind2
            exact (Option.some.inj hfind2).symm
  rcases hchar with h | h
  · subst h
    exact ⟨fun _ => rfl, fun _ => rfl, fun _ => rfl, fun hx => hx, fun hx => hx⟩
  · subst h
    refine ⟨?_, ?_, ?_, ?_, ?_⟩
    · intro hn; simp [applyApptUpdate, truthyStr, hn]
    · intro hn; simp [applyApptUpdate, truthyStr, hn]
    · intro hn; simp [applyApptUpdate, hn]
    · intro h4
      cases hbn : b.notes with
      | none => simpa [applyApptUpdate, truthyStr, hbn] using h4
      | some v =>
        by_cases hv : v = ""
        · subst hv
          simpa [applyApptUpdate, truthyStr, hbn] using h4
        · simp [applyApptUpdate, truthyStr, hbn, hv] at h4
    · intro h4
      cases hbn : b.diagnosis with
      | none => simpa [applyApptUpdate, truthyStr, hbn] using h4
      | some v =>
        by_cases hv : v = ""
        · subst hv
          simpa [applyApptUpdate, truthyStr, hbn] using h4
        · simp [applyApptUpdate, truthyStr, hbn, hv] at h4

/-- Witness for C10: Bob's validated update supplying empty `notes` and
`diagnosis` and no `prescription` goes through (it sets the status) and the
stored appointment keeps its previous notes, diagnosis and prescription. -/
theorem c10_update_falsy_fields_preserved_witness :
    ({ apptPending with status := "confirmada" } : AppointmentDoc).notes =
      apptPending.notes ∧
    ({ apptPending with status := "confirmada" } : AppointmentDoc).diagnosis =
      apptPending.diagnosis ∧
    ({ apptPending with status := "confirmada" } : AppointmentDoc).prescription =
      apptPending.prescription := by
  have h := c10_update_falsy_fields_preserved wardStore bobToken 100
    clearingUpdateBody apptPending { apptPending with status := "confirmada" }
    (by decide) (by decide)
  exact ⟨h.1 rfl, h.2.1 rfl, h.2.2.1 rfl⟩

/-- C7 counterexample: the claim states that a doctor's update supplying
only the diagnosis field succeeds with the diagnosis changed.  Evaluating
the code refutes it: the PUT route reuses `medicalRecordValidation`, which
also requires `patient`, `doctor` and `type` in the body, so the
diagnosis-only request is rejected with 400 and the stored record — in
particular its diagnosis — is unchanged. -/
theorem c7_diagnosis_only_update_rejected :
    updateMedicalRecord mrStore bobToken 500 diagnosisOnlyBody =
      (MRUpdateOut.validationFailed, mrStore) ∧
    MRUpdateOut.validationFailed.statusCode = 400 ∧
    (mrStore.records.find? fun r => r.id == 500) = some mrRecord ∧
    mrRecord.diagnosis ≠ some "Gripe" := by
  decide

/-- C7 amended: a doctor's update must also carry `patient`, `doctor` and a
valid `type` to pass route validation; when it supplies the diagnosis
together with the record's existing `patient`, `doctor` and `type` values
(and nothing else), the update succeeds, the stored diagnosis becomes the
supplied value and every other field of the record is unchanged — the merge
applies exactly the supplied top-level fields, replacing each wholesale. -/
theorem c7_partial_update_contract (s : Store) (u : TokenPayload) (i : Nat)
    (b : MRBody) (r : MedicalRecordDoc) (d : String)
    (hrole : u.role = "doctor")
    (hfind : s.records.find? (fun x => x.id == i) = some r)
    (hown : r.doctor = u.id)
    (hvalid : mrValid r = true)
    (hbp : b.patient = some r.patient)
    (hbd : b.doctor = some r.doctor)
    (hbt : b.type = some r.type)
    (hdg : b.diagnosis = some d)
    (hdt : strTrim d = d)
    (hdne : d ≠ "")
    (hdate : b.date = none) (hsym : b.symptoms = none)
    (htr : b.treatment = none) (hvs : b.vitalSigns = none)
    (hnotes : b.notes = none) (hfu : b.followUp = none) :
    (updateMedicalRecord s u i b).1 =
      MRUpdateOut.updated { r with diagnosis := some d } ∧
    ((updateMedicalRecord s u i b).2.records.find? fun x => x.id == i) =
      some { r with diagnosis := some d } := by
  have haid : (r.id == i) = true := by simpa using List.find?_some hfind
  have hsan : mrBodySanitize b = b := by
    have hmap : b.diagnosis.map strTrim = b.diagnosis := by
      rw [hdg]
      simp [hdt]
    rw [mrBodySanitize, hmap]
  have htype : (["consulta", "emergencia", "control",
      "procedimiento"].contains r.type) = true := by
    have h := hvalid
    unfold mrValid at h
    simp only [Bool.and_eq_true] at h
    exact h.1.1.1.1
  have hval' : medicalRecordValidation b = true := by
    simp [medicalRecordValidation, hbp, hbd, hbt, hdg, hvs, hdne]
    simpa using htype
  have hcr : checkRole ["doctor", "admin"] u = true := by
    simp [checkRole, hrole]
  have hown' : (u.role == "doctor" && r.doctor != u.id) = false := by
    rw [hown]
    simp
  have hmerge : mrMerge r b = { r with diagnosis := some d } := by
    simp [mrMerge, hbp, hbd, hbt, hdg, hdate, hsym, htr, hvs, hnotes, hfu]
  have hv' : mrValid { r with diagnosis := some d } = true := by
    unfold mrValid at hvalid ⊢
    simp only [Bool.and_eq_true] at hvalid ⊢
    exact ⟨⟨⟨⟨hvalid.1.1.1.1, by simp [optNonempty, hdne]⟩, hvalid.1.1.2⟩,
      hvalid.1.2⟩, hvalid.2⟩
  have hmain : updateMedicalRecord s u i b =
      (MRUpdateOut.updated { r with diagnosis := some d },
       { s with records := s.records.map (fun x => if x.id == i then { r with diagnosis := some d } else x) }) := by
    simp [updateMedicalRecord, hsan, hcr, hval', hfind, hown', hmerge, hv']
  constructor
  · rw [hmain]
  · rw [hmain]
    have hp : ∀ x : MedicalRecordDoc,
        ((if x.id == i then { r with diagnosis := some d } else x).id == i)
          = (x.id == i) := by
      intro x
      by_cases hx : (x.id == i) = true
      · simp [hx, haid]
      · simp [hx]
    have h := find?_map_replace (fun x => x.id == i)
      (fun x => if x.id == i then { r with diagnosis := some d } else x)
      hp (fun x hx => by simp [hx]) hfind
    simp only [haid, if_true] at h
    exact h

/-- Witness for C7 amended: Bob updates his record for Alice supplying the
diagnosis `Gripe` together with the record's own patient, doctor and type;
the stored record differs only in its diagnosis. -/
theorem c7_partial_update_contract_witness :
    (updateMedicalRecord mrStore bobToken 500 diagnosisUpdateBody).1 =
      MRUpdateOut.updated { mrRecord with diagnosis := some "Gripe" } ∧
    ((updateMedicalRecord mrStore bobToken 500 diagnosisUpdateBody).2.records.find?
       fun x => x.id == 500) =
      some { mrRecord with diagnosis := some "Gripe" } :=
  c7_partial_update_contract mrStore bobToken 500 diagnosisUpdateBody mrRecord
    "Gripe" rfl (by decide) rfl (by decide) (by decide) (by decide) (by decide)
    (by decide) (by decide) (by decide) rfl rfl rfl rfl rfl rfl

/-- C8 counterexample: the claim states that for every input whose
patient/doctor references do not resolve, a doctor-invoked create still
succeeds.  Evaluating the code refutes it literally: a body with dangling
references that passes route validation but omits the schema-required
`diagnosis`, `notes` and `treatment.recommendations` is rejected by
document validation, so the create answers 500, not success — though,
as the claim's core asserts, no `NotFound` is raised either. -/
theorem c8_dangling_refs_create_not_success :
    createMedicalRecord baseStore bobToken danglingRefsBody 700 777 =
      (MRCreateOut.serverError, baseStore) ∧
    MRCreateOut.serverError.statusCode = 500 ∧
    (baseStore.users.find? fun x => x.id == 99) = none ∧
    (baseStore.users.find? fun x => x.id == 98) = none := by
  decide

/-- C8 amended: medical-record create never consults the user directory —
its response is identical over any store and is never a `NotFound` — and
for every doctor/admin-invoked input that passes route validation and whose
constructed document satisfies the schema, the create succeeds and inserts
the record even though the patient and doctor references resolve to no
user. -/
theorem c8_create_no_reference_check (s : Store) (u : TokenPayload)
    (b : MRBody) (newId now : Nat)
    (hrole : checkRole ["doctor", "admin"] u = true)
    (hval : medicalRecordValidation (mrBodySanitize b) = true)
    (hdoc : mrValid (mrDocOf (mrBodySanitize b) newId now) = true)
    (_hpref : (s.users.find? fun x =>
      x.id == (mrBodySanitize b).patient.getD 0) = none)
    (_hdref : (s.users.find? fun x =>
      x.id == (mrBodySanitize b).doctor.getD 0) = none) :
    createMedicalRecord s u b newId now =
      (MRCreateOut.created (mrDocOf (mrBodySanitize b) newId now),
       { s with records := s.records ++ [mrDocOf (mrBodySanitize b) newId now] }) ∧
    (∀ t : Store, (createMedicalRecord t u b newId now).1 =
      (createMedicalRecord s u b newId now).1) ∧
    (∀ t : Store,
      (createMedicalRecord t u b newId now).1 ≠ MRCreateOut.patientNotFound ∧
      (createMedicalRecord t u b newId now).1 ≠ MRCreateOut.doctorNotFound) := by
  have hall : ∀ t : Store, createMedicalRecord t u b newId now =
      (MRCreateOut.created (mrDocOf (mrBodySanitize b) newId now),
       { t with records := t.records ++ [mrDocOf (mrBodySanitize b) newId now] }) := by
    intro t
    simp [createMedicalRecord, hrole, hval, hdoc]
  refine ⟨hall s, fun t => ?_, fun t => ?_⟩
  · rw [hall t, hall s]
  · rw [hall t]
    exact ⟨by simp, by simp⟩

/-- Witness for C8 amended: Bob creates a record for the nonexistent users
99 and 98 with a schema-complete body; the create succeeds and appends the
document. -/
theorem c8_create_no_reference_check_witness :
    createMedicalRecord baseStore bobToken danglingRefsFullBody 701 777 =
      (MRCreateOut.created (mrDocOf (mrBodySanitize danglingRefsFullBody) 701 777),
       { baseStore with records := baseStore.records ++
           [mrDocOf (mrBodySanitize danglingRefsFullBody) 701 777] }) :=
  (c8_create_no_reference_check baseStore bobToken danglingRefsFullBody 701 777
    (by decide) (by decide) (by decide) (by decide) (by decide)).1

end GestionMedica
